import Mathlib

/-!
Verification of the CDT-plusplus triangulation-construction core.

The development shallowly embeds the two source files of the repository:

* `src/spherical_3_complex.h` — the random-sphere construction loop
  (`make_random_S3_simplicial_complex`), the seeded construction
  (`make_S3_simplicial_complex`), and the per-vertex timeslice labelling.
* `src/src/cdt.cpp` — the `main` driver: the alpha (triangle-inequality)
  precondition, the topology/dimension dispatch, and the downstream
  processing steps (timelike-edge extraction, reporting, file output).

Points are modelled as rational triples (the C++ code uses CGAL's
`Exact_predicates_inexact_constructions_kernel` over doubles; all concrete
coordinates appearing in the source are small integers, which rationals
represent exactly).  The CGAL Delaunay engine itself is third-party library
code that is not part of the repository; where a claim needs its behaviour
(the vertex no-op semantics of `insert`, and the fact that the finished mesh
is the Delaunay triangulation of its vertex set) it is modelled from the
spec, with the modelling noted on the definition.
-/

/-- A 3D point with rational coordinates `(x, (y, z))`. -/
abbrev Point : Type := ℚ × ℚ × ℚ

/-- Coordinatewise difference of two points. -/
def psub (a b : Point) : Point := (a.1 - b.1, a.2.1 - b.2.1, a.2.2 - b.2.2)

/-- Squared Euclidean norm of a point viewed as a vector. -/
def sqnorm (v : Point) : ℚ := v.1 * v.1 + v.2.1 * v.2.1 + v.2.2 * v.2.2

/-- Determinant of the 3×3 matrix with rows `a`, `b`, `c`. -/
def det3 (a b c : Point) : ℚ :=
  a.1 * (b.2.1 * c.2.2 - b.2.2 * c.2.1)
    - a.2.1 * (b.1 * c.2.2 - b.2.2 * c.1)
    + a.2.2 * (b.1 * c.2.1 - b.2.1 * c.1)

/-- Orientation determinant of the tetrahedron `(a, b, c, d)`:
`det [b - a; c - a; d - a]`.  Zero exactly when the four points are
coplanar. -/
def orient (a b c d : Point) : ℚ :=
  det3 (psub b a) (psub c a) (psub d a)

/-- A row of the in-sphere determinant: the displacement `x - p` together
with its squared norm. -/
def insphereRow (x p : Point) : ℚ × ℚ × ℚ × ℚ :=
  (x.1 - p.1, x.2.1 - p.2.1, x.2.2 - p.2.2, sqnorm (psub x p))

/-- Determinant of the 4×4 matrix with rows `r1`, `r2`, `r3`, `r4`
(cofactor expansion along the first row). -/
def det4 (r1 r2 r3 r4 : ℚ × ℚ × ℚ × ℚ) : ℚ :=
  r1.1 * det3 (r2.2.1, r2.2.2.1, r2.2.2.2) (r3.2.1, r3.2.2.1, r3.2.2.2)
          (r4.2.1, r4.2.2.1, r4.2.2.2)
    - r1.2.1 * det3 (r2.1, r2.2.2.1, r2.2.2.2) (r3.1, r3.2.2.1, r3.2.2.2)
          (r4.1, r4.2.2.1, r4.2.2.2)
    + r1.2.2.1 * det3 (r2.1, r2.2.1, r2.2.2.2) (r3.1, r3.2.1, r3.2.2.2)
          (r4.1, r4.2.1, r4.2.2.2)
    - r1.2.2.2 * det3 (r2.1, r2.2.1, r2.2.2.1) (r3.1, r3.2.1, r3.2.2.1)
          (r4.1, r4.2.1, r4.2.2.1)

/-- The in-sphere determinant of tetrahedron `(a, b, c, d)` and query point
`p`. -/
def insphereDet (a b c d p : Point) : ℚ :=
  det4 (insphereRow a p) (insphereRow b p) (insphereRow c p) (insphereRow d p)

/-- `p` lies strictly inside the circumsphere of the (non-degenerate)
tetrahedron `(a, b, c, d)`.  With this row convention the in-sphere
determinant is negative for interior points of a positively oriented
tetrahedron, so the orientation-independent test is
`orient * insphereDet < 0`. -/
def strictlyInside (a b c d p : Point) : Bool :=
  decide (orient a b c d * insphereDet a b c d p < 0)

/-- All unordered pairs of elements of a list (in order of occurrence). -/
def combos2 {α : Type} : List α → List (α × α)
  | [] => []
  | x :: xs => xs.map (fun y => (x, y)) ++ combos2 xs

/-- All unordered triples of elements of a list. -/
def combos3 {α : Type} : List α → List (α × α × α)
  | [] => []
  | x :: xs => (combos2 xs).map (fun yz => (x, yz.1, yz.2)) ++ combos3 xs

/-- All unordered quadruples of elements of a list. -/
def combos4 {α : Type} : List α → List (α × α × α × α)
  | [] => []
  | x :: xs => (combos3 xs).map (fun t => (x, t.1, t.2.1, t.2.2)) ++ combos4 xs

/-- A tetrahedral cell, given by its four vertex points. -/
abbrev Cell4 : Type := Point × Point × Point × Point

/-- A quadruple of points of `pts` is a Delaunay cell when it is
non-degenerate and no point of `pts` lies strictly inside its circumsphere
(the empty-sphere property; a point of the quadruple itself is on the
sphere, never strictly inside it). -/
def isDelaunayCell (pts : List Point) (c : Cell4) : Bool :=
  decide (orient c.1 c.2.1 c.2.2.1 c.2.2.2 ≠ 0)
    && pts.all (fun p => ! strictlyInside c.1 c.2.1 c.2.2.1 c.2.2.2 p)

/-- Modelled from the spec: the finite cells of the Delaunay triangulation
of a point set, as produced by CGAL's `Delaunay_triangulation_3` (library
code, not part of the repository).  Per the spec's glossary, a "Delaunay
triangulation" is "a triangulation where no vertex lies inside the
circumsphere of any cell"; its finite cells are exactly the non-degenerate
vertex quadruples whose open circumball contains no vertex. -/
def delaunayCells (pts : List Point) : List Cell4 :=
  (combos4 pts).filter (isDelaunayCell pts)

/-- The point set spans all three dimensions: some quadruple is
non-coplanar.  This is CGAL's `dimension() == 3` on the triangulation of
`pts`. -/
def hasDimension3 (pts : List Point) : Bool :=
  (combos4 pts).any (fun c => decide (orient c.1 c.2.1 c.2.2.1 c.2.2.2 ≠ 0))

/-- A triangulation vertex: a point plus the integer `info()` payload
holding the timeslice label (CGAL's
`Triangulation_vertex_base_with_info_3<int, K>`). -/
structure Vertex : Type where
  point : Point
  info : ℤ
deriving DecidableEq

/-- The mesh state: the finite vertices and finite cells of the
triangulation. -/
structure Mesh : Type where
  vertices : List Vertex
  cells : List Cell4
deriving DecidableEq

/-- The coordinates of the mesh's finite vertices. -/
def Mesh.vertexPoints (m : Mesh) : List Point := m.vertices.map Vertex.point

/-- The empty triangulation, as default-constructed by `Delaunay Sphere3;`
in `cdt.cpp`. -/
def emptyMesh : Mesh := ⟨[], []⟩

/-- Modelled from the spec: CGAL's `Delaunay_triangulation_3::insert`
(library code, not part of the repository).  Per the spec, a vertex is
"unique per coordinate — inserting a point equal to an existing vertex is a
no-op, not a new vertex"; otherwise a new vertex is created (its `info`
field starts unset, modelled as 0) and the finite cells are those of the
Delaunay triangulation of the enlarged vertex set. -/
def insertPoint (m : Mesh) (p : Point) : Mesh :=
  if p ∈ m.vertexPoints then m
  else
    let vs := m.vertices ++ [⟨p, 0⟩]
    ⟨vs, delaunayCells (vs.map Vertex.point)⟩

/-- The C cast `(int) CGAL::to_double(z)` of a rational coordinate:
truncation toward zero. -/
def truncCast (q : ℚ) : ℤ := if 0 ≤ q then q.floor else q.ceil

/-- The labelling loop of `make_S3_simplicial_complex`
(src/spherical_3_complex.h lines 123–128): for every finite vertex, store
`(int) CGAL::to_double(vit->point().z())` in the vertex's `info` field. -/
def storeTimeslices (m : Mesh) : Mesh :=
  ⟨m.vertices.map (fun v => ⟨v.point, truncCast v.point.2.2⟩), m.cells⟩

/-- The seeded construction `make_S3_simplicial_complex`
(src/spherical_3_complex.h lines 97–139).  The C++ function is a template
over the triangulation type `T`; here `ins` stands for `T::insert` (CGAL's
Delaunay insertion).  It computes `simplices_per_timeslice`, inserts the
five seed points, inserts the apex point `(1,1,1)`, and then labels every
finite vertex with the integer cast of its z coordinate. -/
def make_S3_simplicial_complex (ins : Mesh → Point → Mesh) (S3 : Mesh)
    (number_of_simplices number_of_timeslices : ℤ) : Mesh :=
  let simplices_per_timeslice := number_of_simplices / number_of_timeslices
  let s1 := ins S3 ((0 : ℚ), (0 : ℚ), (1 : ℚ))
  let s2 := ins s1 ((2 : ℚ), (0 : ℚ), (1 : ℚ))
  let s3 := ins s2 ((0 : ℚ), (2 : ℚ), (1 : ℚ))
  let s4 := ins s3 ((0 : ℚ), (0 : ℚ), (2 : ℚ))
  let s5 := ins s4 ((0 : ℚ), (0 : ℚ), (0 : ℚ))
  let s6 := ins s5 ((1 : ℚ), (1 : ℚ), (1 : ℚ))
  storeTimeslices s6

/-- CGAL's `Triangulation_3::Locate_type` enumeration, returned by
`locate`. -/
inductive LocateType : Type
  | VERTEX
  | EDGE
  | FACET
  | CELL
  | OUTSIDE_CONVEX_HULL
  | OUTSIDE_AFFINE_HULL
deriving DecidableEq

/-- The triangulation-engine operations used by the random construction
loop.  The C++ loop is a template over the triangulation type `T` and
delegates `locate`, `find_conflicts` and `insert_in_hole` to CGAL (library
code, not part of the repository); they are therefore abstract here, except
for the one piece of their documented semantics the claims use: `locate`
reports `VERTEX` exactly when the query point coincides with an existing
vertex (the spec's `locate` "returns ... whether `point` coincides with a
vertex"). -/
structure TriangulationEngine : Type where
  locate : Mesh → Point → LocateType
  find_conflicts : Mesh → Point → List Cell4
  insert_in_hole : Mesh → Point → List Cell4 → Mesh
  locate_vertex_iff : ∀ m p, locate m p = LocateType.VERTEX ↔ p ∈ m.vertexPoints

/-- Outcome of one iteration of the random construction loop body. -/
inductive StepResult : Type
  | skippedVertex (m : Mesh)
  | inserted (m : Mesh)
  | rejected (m : Mesh)
deriving DecidableEq

/-- The mesh carried by a step outcome. -/
def StepResult.mesh : StepResult → Mesh
  | StepResult.skippedVertex m => m
  | StepResult.inserted m => m
  | StepResult.rejected m => m

/-- The body of the do-while loop of `make_random_S3_simplicial_complex`
(src/spherical_3_complex.h lines 56–87), for one sampled point `p`:
locate `p`; if the locate type is `VERTEX` the point already exists and the
iteration is skipped (`continue`); otherwise collect the conflict cells `V`
and, when `(V.size() & 1) == 0` (even count), call `insert_in_hole`;
otherwise fall through with the mesh unchanged (the loop then samples a new
point). -/
def randomStep (E : TriangulationEngine) (m : Mesh) (p : Point) : StepResult :=
  if E.locate m p = LocateType.VERTEX then
    StepResult.skippedVertex m
  else
    let V := E.find_conflicts m p
    if V.length % 2 = 0 then
      StepResult.inserted (E.insert_in_hole m p V)
    else
      StepResult.rejected m

/-- The topology selector of `cdt.cpp`. -/
inductive Topology : Type
  | spherical
  | toroidal
deriving DecidableEq

/-- The parsed command-line configuration of `cdt.cpp` `main` (lines
94–100): `-n`, `-t`, `-d`, `-a`, `-k`, `-l`, `-p`.  The long-double
physics constants are modelled as rationals. -/
structure Config : Type where
  simplices : ℕ
  timeslices : ℕ
  dimensions : ℕ
  alpha : ℚ
  k : ℚ
  lambda : ℚ
  passes : ℕ
deriving DecidableEq

/-- The observable actions of `cdt.cpp` `main`, in program order. -/
inductive Event : Type
  /-- The job-parameter display block (lines 112–123). -/
  | paramsDisplayed
  /-- The triangle-inequality diagnostic of lines 136–137, followed by
  `return 1`. -/
  | alphaRejected
  /-- The call to `make_S3_triangulation` (line 144): geometry is built. -/
  | makeS3Triangulation
  /-- The "Currently, dimensions cannot be higher than 3." message
  (line 147). -/
  | dimensionMessage
  /-- The "make_T3_triangulation not implemented yet." message
  (line 152). -/
  | toroidalMessage
  /-- The "Universe has been initialized ..." message (line 157). -/
  | universeInitialized
  /-- The call to `get_timelike_edges` (line 170): edge extraction. -/
  | getTimelikeEdges
  /-- The call to `print_results` (line 177). -/
  | printResults
  /-- The call to `write_file` (line 182): file output. -/
  | writeFile
deriving DecidableEq

/-- The control flow of `cdt.cpp` `main` (lines 75–186) after argument
parsing, as the list of observable actions together with the process exit
status.  The alpha precondition (lines 135–139) fires only in 3 dimensions
and returns 1 at once; otherwise the topology switch (lines 141–155) either
builds geometry (spherical, dimension 3) or merely prints a message, and in
every such case execution falls through to the downstream steps (lines
157–185) and returns 0. -/
def cdtMain (cfg : Config) (topology : Topology) : List Event × ℤ :=
  if cfg.dimensions = 3 ∧ |cfg.alpha| < 1 / 2 then
    ([Event.paramsDisplayed, Event.alphaRejected], 1)
  else
    let constructionEvents :=
      match topology with
      | Topology.spherical =>
        if cfg.dimensions = 3 then [Event.makeS3Triangulation]
        else [Event.dimensionMessage]
      | Topology.toroidal => [Event.toroidalMessage]
    ([Event.paramsDisplayed] ++ constructionEvents
      ++ [Event.universeInitialized, Event.getTimelikeEdges,
          Event.printResults, Event.writeFile], 0)

/-- A concrete engine instance used to exhibit concrete behaviours of
`randomStep`: `locate` follows its specified vertex semantics, the
conflict-region search returns no cells, and `insert_in_hole` leaves the
mesh unchanged. -/
def demoEngine : TriangulationEngine where
  locate := fun m p =>
    if p ∈ m.vertexPoints then LocateType.VERTEX else LocateType.CELL
  find_conflicts := fun _ _ => []
  insert_in_hole := fun m _ _ => m
  locate_vertex_iff := by
    intro m p
    by_cases h : p ∈ m.vertexPoints
    · simp [h]
    · simp [h]

/-- A mesh holding the four seed vertices of
`make_random_S3_simplicial_complex` (lines 45–48) and the single Delaunay
cell they span. -/
def seedMesh4 : Mesh :=
  let pts : List Point := [(0, 0, 0), (1, 0, 0), (0, 1, 0), (0, 0, 1)]
  ⟨pts.map (fun p => ⟨p, 0⟩), delaunayCells pts⟩

/-- A configuration requesting dimension 4 (spherical run, alpha within
bounds). -/
def cfgDim4 : Config := ⟨64000, 256, 4, 1, 2, 3, 10000⟩

/-- A configuration requesting dimension 3 with alpha within bounds (used
for toroidal runs). -/
def cfgDim3 : Config := ⟨64000, 256, 3, 1, 2, 3, 10000⟩

/-- A mesh holding a single finite vertex, used to exhibit the duplicate
insertion no-op concretely. -/
def oneVertexMesh : Mesh := ⟨[⟨((0 : ℚ), (0 : ℚ), (1 : ℚ)), 0⟩], []⟩

/-- A dimension-3 configuration whose alpha violates the triangle
inequality precondition. -/
def cfgAlphaSmall : Config := ⟨64000, 256, 3, 1 / 4, 2, 3, 10000⟩

/-- A configuration requesting dimension 5 (used on a toroidal run). -/
def cfgDim5 : Config := ⟨1, 1, 5, 7, 0, 0, 1⟩

/-- Sanity check of the in-sphere sign convention: a point well inside the
unit tetrahedron is strictly inside its circumsphere and a far point is
not. -/
theorem strictlyInside_convention :
    strictlyInside (0, 0, 0) (1, 0, 0) (0, 1, 0) (0, 0, 1)
        (1 / 4, 1 / 4, 1 / 4) = true
    ∧ strictlyInside (0, 0, 0) (1, 0, 0) (0, 1, 0) (0, 0, 1)
        (10, 10, 10) = false := by with_unfolding_all decide

/-- The five-point seed stage has exactly two Delaunay cells, matching the
source comment "This point gives us two cells, 5 vertices, 9 edges, and 7
faces" at src/spherical_3_complex.h line 110. -/
theorem five_point_seed_has_two_cells :
    (delaunayCells
      [((0 : ℚ), (0 : ℚ), (1 : ℚ)), (2, 0, 1), (0, 2, 1), (0, 0, 2),
       (0, 0, 0)]).length = 2 := by with_unfolding_all decide

/-- The apex `(1,1,1)` lies strictly inside the circumsphere of each of the
two five-point-stage cells, so both are destroyed when it is inserted. -/
theorem apex_conflicts_with_both_cells :
    strictlyInside ((0 : ℚ), (0 : ℚ), (1 : ℚ)) (2, 0, 1) (0, 2, 1) (0, 0, 2)
        (1, 1, 1) = true
    ∧ strictlyInside ((0 : ℚ), (0 : ℚ), (1 : ℚ)) (2, 0, 1) (0, 2, 1) (0, 0, 0)
        (1, 1, 1) = true := by with_unfolding_all decide

/-- C1: in random-sphere construction mode, for a candidate point that does
not coincide with an existing vertex, the loop body calls `insert_in_hole`
(retriangulates the cavity) if and only if the number of conflict cells is
even; an odd count leaves the mesh unchanged and the loop resamples. -/
theorem random_insert_iff_even_conflicts (E : TriangulationEngine) (m : Mesh)
    (p : Point) (h : p ∉ m.vertexPoints) :
    (randomStep E m p
        = StepResult.inserted (E.insert_in_hole m p (E.find_conflicts m p))
      ↔ (E.find_conflicts m p).length % 2 = 0)
    ∧ ((E.find_conflicts m p).length % 2 = 1 →
        randomStep E m p = StepResult.rejected m) := by
  have hlt : ¬ E.locate m p = LocateType.VERTEX :=
    fun hv => h ((E.locate_vertex_iff m p).mp hv)
  by_cases hev : (E.find_conflicts m p).length % 2 = 0
  · refine ⟨⟨fun _ => hev, fun _ => ?_⟩, fun hodd => ?_⟩
    · simp [randomStep, hlt, hev]
    · omega
  · refine ⟨⟨fun hc => ?_, fun hc => absurd hc hev⟩, fun _ => ?_⟩
    · exfalso
      revert hc
      simp [randomStep, hlt, hev]
    · simp [randomStep, hlt, hev]

/-- Witness for C1 at a concrete engine, mesh and point. -/
theorem random_insert_iff_even_conflicts_witness :
    (randomStep demoEngine emptyMesh ((0 : ℚ), (0 : ℚ), (0 : ℚ))
        = StepResult.inserted
            (demoEngine.insert_in_hole emptyMesh ((0 : ℚ), (0 : ℚ), (0 : ℚ))
              (demoEngine.find_conflicts emptyMesh ((0 : ℚ), (0 : ℚ), (0 : ℚ))))
      ↔ (demoEngine.find_conflicts emptyMesh
          ((0 : ℚ), (0 : ℚ), (0 : ℚ))).length % 2 = 0)
    ∧ ((demoEngine.find_conflicts emptyMesh
          ((0 : ℚ), (0 : ℚ), (0 : ℚ))).length % 2 = 1 →
        randomStep demoEngine emptyMesh ((0 : ℚ), (0 : ℚ), (0 : ℚ))
          = StepResult.rejected emptyMesh) :=
  random_insert_iff_even_conflicts demoEngine emptyMesh
    ((0 : ℚ), (0 : ℚ), (0 : ℚ)) (by decide)

/-- C6 counterexample: at a concrete engine state where the located point
is not an existing vertex and the conflict region is empty, the loop body
proceeds with retriangulation (`insert_in_hole` on the empty region) — no
`DegenerateInsertion` failure exists in the code. -/
theorem empty_conflict_region_counterexample :
    demoEngine.locate seedMesh4 ((5 : ℚ), (5 : ℚ), (5 : ℚ)) ≠ LocateType.VERTEX
    ∧ demoEngine.find_conflicts seedMesh4 ((5 : ℚ), (5 : ℚ), (5 : ℚ)) = []
    ∧ randomStep demoEngine seedMesh4 ((5 : ℚ), (5 : ℚ), (5 : ℚ))
        = StepResult.inserted
            (demoEngine.insert_in_hole seedMesh4 ((5 : ℚ), (5 : ℚ), (5 : ℚ)) []) := by
  with_unfolding_all decide

/-- C6 amended: when the located point is not an existing vertex and the
conflict region is empty, the parity test treats 0 as even and
`insert_in_hole` is invoked on the empty region; no error is raised or
logged. -/
theorem empty_conflict_region_inserts (E : TriangulationEngine) (m : Mesh)
    (p : Point) (h1 : E.locate m p ≠ LocateType.VERTEX)
    (h2 : E.find_conflicts m p = []) :
    randomStep E m p = StepResult.inserted (E.insert_in_hole m p []) := by
  simp [randomStep, h1, h2]

/-- Witness for the amended C6 at a concrete engine, mesh and point. -/
theorem empty_conflict_region_inserts_witness :
    randomStep demoEngine emptyMesh ((7 : ℚ), (7 : ℚ), (7 : ℚ))
      = StepResult.inserted
          (demoEngine.insert_in_hole emptyMesh ((7 : ℚ), (7 : ℚ), (7 : ℚ)) []) :=
  empty_conflict_region_inserts demoEngine emptyMesh
    ((7 : ℚ), (7 : ℚ), (7 : ℚ)) (by decide) (by decide)

/-- C7: inserting a point equal to the coordinates of an existing vertex is
a no-op: the loop body skips it (`continue`), leaving the finite vertex
count, the finite cell count, every vertex's timeslice label, and the
vertex list itself unchanged — no new vertex is created. -/
theorem insert_existing_vertex_noop (E : TriangulationEngine) (m : Mesh)
    (p : Point) (h : p ∈ m.vertexPoints) :
    randomStep E m p = StepResult.skippedVertex m
    ∧ (randomStep E m p).mesh.vertices.length = m.vertices.length
    ∧ (randomStep E m p).mesh.cells.length = m.cells.length
    ∧ (randomStep E m p).mesh.vertices = m.vertices := by
  have hv : E.locate m p = LocateType.VERTEX := (E.locate_vertex_iff m p).mpr h
  simp [randomStep, hv, StepResult.mesh]

/-- Witness for C7 at a concrete engine, mesh and point. -/
theorem insert_existing_vertex_noop_witness :
    randomStep demoEngine oneVertexMesh ((0 : ℚ), (0 : ℚ), (1 : ℚ))
      = StepResult.skippedVertex oneVertexMesh
    ∧ (randomStep demoEngine oneVertexMesh
        ((0 : ℚ), (0 : ℚ), (1 : ℚ))).mesh.vertices.length
        = oneVertexMesh.vertices.length
    ∧ (randomStep demoEngine oneVertexMesh
        ((0 : ℚ), (0 : ℚ), (1 : ℚ))).mesh.cells.length
        = oneVertexMesh.cells.length
    ∧ (randomStep demoEngine oneVertexMesh
        ((0 : ℚ), (0 : ℚ), (1 : ℚ))).mesh.vertices = oneVertexMesh.vertices :=
  insert_existing_vertex_noop demoEngine oneVertexMesh
    ((0 : ℚ), (0 : ℚ), (1 : ℚ)) (by decide)

/-- C3: in 3 dimensions, `|alpha| < 0.5` makes `main` print the
triangle-inequality diagnostic and return 1 before any triangulation work
(no construction event occurs); `|alpha| >= 0.5` passes the check. -/
theorem alpha_precondition_check (cfg : Config) (topology : Topology)
    (h3 : cfg.dimensions = 3) :
    (|cfg.alpha| < 1 / 2 →
        cdtMain cfg topology = ([Event.paramsDisplayed, Event.alphaRejected], 1)
        ∧ Event.makeS3Triangulation ∉ (cdtMain cfg topology).1
        ∧ (cdtMain cfg topology).2 ≠ 0)
    ∧ (1 / 2 ≤ |cfg.alpha| →
        Event.alphaRejected ∉ (cdtMain cfg topology).1) := by
  constructor
  · intro ha
    have hc : cfg.dimensions = 3 ∧ |cfg.alpha| < 1 / 2 := ⟨h3, ha⟩
    unfold cdtMain
    rw [if_pos hc]
    exact ⟨rfl, by decide, by decide⟩
  · intro ha
    have hc : ¬ (cfg.dimensions = 3 ∧ |cfg.alpha| < 1 / 2) := by
      rintro ⟨-, hlt⟩
      exact absurd hlt (not_lt.mpr ha)
    unfold cdtMain
    rw [if_neg hc]
    cases topology
    · by_cases hd : cfg.dimensions = 3 <;> simp [hd]
    · simp

/-- Witness for C3 at a concrete configuration with `alpha = 1/4`. -/
theorem alpha_precondition_check_witness :
    (|cfgAlphaSmall.alpha| < 1 / 2 →
        cdtMain cfgAlphaSmall Topology.spherical
          = ([Event.paramsDisplayed, Event.alphaRejected], 1)
        ∧ Event.makeS3Triangulation ∉ (cdtMain cfgAlphaSmall Topology.spherical).1
        ∧ (cdtMain cfgAlphaSmall Topology.spherical).2 ≠ 0)
    ∧ (1 / 2 ≤ |cfgAlphaSmall.alpha| →
        Event.alphaRejected ∉ (cdtMain cfgAlphaSmall Topology.spherical).1) :=
  alpha_precondition_check cfgAlphaSmall Topology.spherical rfl

/-- C4 counterexample: a spherical run requesting dimension 4 exits with
status 0 (not nonzero) and still performs the downstream edge extraction
and file output, while building no geometry. -/
theorem dimension4_run_counterexample :
    (cdtMain cfgDim4 Topology.spherical).2 = 0
    ∧ Event.getTimelikeEdges ∈ (cdtMain cfgDim4 Topology.spherical).1
    ∧ Event.writeFile ∈ (cdtMain cfgDim4 Topology.spherical).1
    ∧ Event.makeS3Triangulation ∉ (cdtMain cfgDim4 Topology.spherical).1 := by
  decide

/-- C4 amended: for every run requesting a dimension other than 3, no
geometry is built, but the run is not fatal: `main` continues with the
downstream processing (edge extraction, output) and exits with status 0. -/
theorem dimension_not3_continues (cfg : Config) (topology : Topology)
    (h : cfg.dimensions ≠ 3) :
    Event.makeS3Triangulation ∉ (cdtMain cfg topology).1
    ∧ (cdtMain cfg topology).2 = 0
    ∧ Event.getTimelikeEdges ∈ (cdtMain cfg topology).1
    ∧ Event.writeFile ∈ (cdtMain cfg topology).1 := by
  have hc : ¬ (cfg.dimensions = 3 ∧ |cfg.alpha| < 1 / 2) := fun hck => h hck.1
  cases topology <;> simp [cdtMain, hc, h]

/-- Witness for the amended C4 at a concrete dimension-4 configuration. -/
theorem dimension_not3_continues_witness :
    Event.makeS3Triangulation ∉ (cdtMain cfgDim4 Topology.spherical).1
    ∧ (cdtMain cfgDim4 Topology.spherical).2 = 0
    ∧ Event.getTimelikeEdges ∈ (cdtMain cfgDim4 Topology.spherical).1
    ∧ Event.writeFile ∈ (cdtMain cfgDim4 Topology.spherical).1 :=
  dimension_not3_continues cfgDim4 Topology.spherical (by decide)

/-- C5 counterexample: a toroidal run (dimension 3, alpha in bounds) prints
the unimplemented message but then exits with status 0 after performing the
downstream processing. -/
theorem toroidal_run_counterexample :
    cdtMain cfgDim3 Topology.toroidal
      = ([Event.paramsDisplayed, Event.toroidalMessage,
          Event.universeInitialized, Event.getTimelikeEdges,
          Event.printResults, Event.writeFile], 0)
    ∧ (cdtMain cfgDim3 Topology.toroidal).2 = 0
    ∧ Event.writeFile ∈ (cdtMain cfgDim3 Topology.toroidal).1 := by
  with_unfolding_all decide

/-- C5 amended: every toroidal run not rejected by the alpha precondition
reports toroidal topology as unimplemented and attempts no construction,
but then continues with downstream processing and exits with status 0. -/
theorem toroidal_reports_and_continues (cfg : Config)
    (h : ¬ (cfg.dimensions = 3 ∧ |cfg.alpha| < 1 / 2)) :
    cdtMain cfg Topology.toroidal
      = ([Event.paramsDisplayed, Event.toroidalMessage,
          Event.universeInitialized, Event.getTimelikeEdges,
          Event.printResults, Event.writeFile], 0) := by
  unfold cdtMain
  rw [if_neg h]
  rfl

/-- Witness for the amended C5 at a concrete dimension-5 configuration. -/
theorem toroidal_reports_and_continues_witness :
    cdtMain cfgDim5 Topology.toroidal
      = ([Event.paramsDisplayed, Event.toroidalMessage,
          Event.universeInitialized, Event.getTimelikeEdges,
          Event.printResults, Event.writeFile], 0) :=
  toroidal_reports_and_continues cfgDim5 (by decide)

/-- C8: every finite vertex of the finished seed mesh carries as its
timeslice label the floor of its z coordinate (the code stores the C
integer cast of `z`, which agrees with the floor on the seed coordinates);
the labels are written once by the final labelling pass of the seeded
construction and nothing recomputes them afterwards. -/
theorem seed_labels_are_floor_of_z (n t : ℤ) :
    ∀ v ∈ (make_S3_simplicial_complex insertPoint emptyMesh n t).vertices,
      v.info = ⌊v.point.2.2⌋ := by
  have hv : (make_S3_simplicial_complex insertPoint emptyMesh n t).vertices
      = [⟨((0 : ℚ), (0 : ℚ), (1 : ℚ)), 1⟩, ⟨((2 : ℚ), (0 : ℚ), (1 : ℚ)), 1⟩,
         ⟨((0 : ℚ), (2 : ℚ), (1 : ℚ)), 1⟩, ⟨((0 : ℚ), (0 : ℚ), (2 : ℚ)), 2⟩,
         ⟨((0 : ℚ), (0 : ℚ), (0 : ℚ)), 0⟩,
         ⟨((1 : ℚ), (1 : ℚ), (1 : ℚ)), 1⟩] := by with_unfolding_all rfl
  rw [hv]
  intro v hv2
  fin_cases hv2 <;> with_unfolding_all decide

/-- Witness for C8 at the first seed vertex. -/
theorem seed_labels_are_floor_of_z_witness :
    (⟨((0 : ℚ), (0 : ℚ), (1 : ℚ)), 1⟩ : Vertex)
        ∈ (make_S3_simplicial_complex insertPoint emptyMesh 64000 256).vertices
    ∧ (⟨((0 : ℚ), (0 : ℚ), (1 : ℚ)), 1⟩ : Vertex).info
        = ⌊(⟨((0 : ℚ), (0 : ℚ), (1 : ℚ)), 1⟩ : Vertex).point.2.2⌋ :=
  ⟨by with_unfolding_all decide,
   seed_labels_are_floor_of_z 64000 256 ⟨((0 : ℚ), (0 : ℚ), (1 : ℚ)), 1⟩
     (by with_unfolding_all decide)⟩

/-- C9 (code bug): the finished seed mesh is three-dimensional but has 4
finite cells, not the 6 announced by the source comment "This point makes a
naive 2-6 move. We should have 6 cells": the apex `(1,1,1)` is the midpoint
of the edge from `(2,0,1)` to `(0,2,1)`, so inserting it splits the two
cells sharing that edge into 2 cells each instead of performing a 2-6
move. -/
theorem seed_mesh_has_four_cells :
    (make_S3_simplicial_complex insertPoint emptyMesh 64000 256).cells.length = 4
    ∧ hasDimension3
        ((make_S3_simplicial_complex insertPoint emptyMesh
          64000 256).vertexPoints) = true := by
  with_unfolding_all decide

/-- C10: the seeded construction ignores both of its numeric parameters:
for any insertion engine and start state, any two calls with nonzero
timeslice counts produce the identical final mesh, timeslice labels
included (`simplices_per_timeslice` is computed but never used). -/
theorem seed_construction_ignores_parameters (ins : Mesh → Point → Mesh)
    (S3 : Mesh) (n t n2 t2 : ℤ) (ht : t ≠ 0) (ht2 : t2 ≠ 0) :
    make_S3_simplicial_complex ins S3 n t
      = make_S3_simplicial_complex ins S3 n2 t2 := by
  rfl

/-- Witness for C10 at concrete parameter pairs. -/
theorem seed_construction_ignores_parameters_witness :
    make_S3_simplicial_complex insertPoint emptyMesh 64000 256
      = make_S3_simplicial_complex insertPoint emptyMesh 1 1 :=
  seed_construction_ignores_parameters insertPoint emptyMesh 64000 256 1 1
    (by decide) (by decide)
